import Mathlib

/-!
Verification of the playlist/track data-access layer of the Music-Player
repository (src/database.py), as a shallow embedding in Lean 4.

The SQLite store is modelled by the record DB: the three tables (playlist,
track, stream — streams are stored inline on their owning track, matching the
1:1 ownership) plus the playlist_track association table, and the autoincrement
counters for primary keys. A PlaylistManager is the session state: the live
database view (db), the last durably committed snapshot (committed), a count of
commit calls, and the session-open flag. Every manager method of the Python
class is translated line by line into a state transformer; Python truthiness
tests on optional strings and integers are made explicit with truthy helpers.
Methods with no null guard that dereference track.playlists translate to
Except-valued functions whose error branch stands for the AttributeError that
the Python code raises when given None.
-/

namespace MusicPlayer

/-- Row of the stream table: owned 1:1 by a track. -/
structure Stream where
  url : String
  deriving DecidableEq

/-- Row of the playlist table. date_created is an abstract timestamp. -/
structure Playlist where
  id : Nat
  title : String
  description : String
  date_created : Nat
  downloaded : Bool
  deriving DecidableEq

/-- Row of the track table, with its optional stream row stored inline. -/
structure Track where
  id : Nat
  title : String
  artist : String
  album : String
  duration : Int
  path : Option String
  stream : Option Stream
  liked : Bool
  cover_art_url : String
  deriving DecidableEq

/-- The persisted store: the tables and the autoincrement counters. -/
structure DB where
  playlists : List Playlist
  tracks : List Track
  playlist_track : List (Nat × Nat)
  next_playlist_id : Nat
  next_track_id : Nat
  deriving DecidableEq

/-- Manager/session state: live view, committed snapshot, commit count,
session-open flag, and the ambient clock used for datetime.now(). -/
structure PlaylistManager where
  db : DB
  committed : DB
  commits : Nat
  session_open : Bool
  clock : Nat
  deriving DecidableEq

/-- Python truthiness of an optional string: None and the empty string are
falsy. -/
def truthyStr : Option String → Bool
  | none => false
  | some s => s != ""

/-- Python truthiness of an optional integer: None and 0 are falsy. -/
def truthyNat : Option Nat → Bool
  | none => false
  | some n => n != 0

/-- The relationship view track.playlists, derived from the association
table: the playlists whose row is linked to this track. -/
def DB.trackPlaylists (db : DB) (t : Track) : List Playlist :=
  db.playlists.filter (fun p => decide ((p.id, t.id) ∈ db.playlist_track))

/-- The relationship view playlist.tracks, derived from the association
table. -/
def DB.playlistTracks (db : DB) (p : Playlist) : List Track :=
  db.tracks.filter (fun t => decide ((p.id, t.id) ∈ db.playlist_track))

/-- session.commit(): the live view becomes the durable snapshot. -/
def PlaylistManager.commit (m : PlaylistManager) : PlaylistManager :=
  { m with committed := m.db, commits := m.commits + 1 }

/-- PlaylistManager.__init__: create_all only ensures the schema, so the
store content is whatever was already persisted; a session is opened. -/
def manager_init (stored : DB) (clock : Nat) : PlaylistManager :=
  { db := stored, committed := stored, commits := 0, session_open := true,
    clock := clock }

/-- get_track: first match by title when the title argument is truthy, else
first match by id when the id argument is truthy, else None. Reads mutate
nothing. -/
def get_track (m : PlaylistManager) (title : Option String) (id : Option Nat) :
    Option Track × PlaylistManager :=
  (if truthyStr title then
    m.db.tracks.find? (fun t => t.title == title.getD "")
  else if truthyNat id then
    m.db.tracks.find? (fun t => t.id == id.getD 0)
  else
    none, m)

/-- get_or_create_track: lookup by title; if absent, normalize a falsy
cover_art_url to the empty string, construct a Track with playlists=[] and a
Stream for the given url (no path is passed), add it, and commit. -/
def get_or_create_track (m : PlaylistManager) (title artist album : String)
    (duration : Int) (stream_url : String) (cover_art_url : Option String) :
    Track × PlaylistManager :=
  match (get_track m (some title) none).1 with
  | some t => (t, m)
  | none =>
    let cover : String := if truthyStr cover_art_url then cover_art_url.getD "" else ""
    let t : Track :=
      { id := m.db.next_track_id, title := title, artist := artist,
        album := album, duration := duration, path := none,
        stream := some { url := stream_url }, liked := false,
        cover_art_url := cover }
    let db' : DB :=
      { m.db with
        tracks := m.db.tracks ++ [t]
        next_track_id := m.db.next_track_id + 1 }
    (t, ({ m with db := db' }).commit)

/-- session.merge on a track: update the row with the same primary key, or
insert the instance when no such row exists. -/
def mergeTrack (db : DB) (t : Track) : DB :=
  if db.tracks.any (fun x => x.id == t.id) then
    { db with tracks := db.tracks.map (fun x => if x.id == t.id then t else x) }
  else
    { db with tracks := db.tracks ++ [t] }

/-- session.merge on a playlist: update the row with the same primary key, or
insert the instance when no such row exists. -/
def mergePlaylist (db : DB) (p : Playlist) : DB :=
  if db.playlists.any (fun x => x.id == p.id) then
    { db with playlists := db.playlists.map (fun x => if x.id == p.id then p else x) }
  else
    { db with playlists := db.playlists ++ [p] }

/-- add_track_cover_art: silent no-op on a null track; otherwise set the
field, merge, and commit. -/
def add_track_cover_art (m : PlaylistManager) (track : Option Track)
    (cover_art_url : String) : PlaylistManager :=
  match track with
  | none => m
  | some t =>
    ({ m with db := mergeTrack m.db { t with cover_art_url := cover_art_url } }).commit

/-- get_playlist: first playlist matching the title; reads mutate nothing. -/
def get_playlist (m : PlaylistManager) (title : String) :
    Option Playlist × PlaylistManager :=
  (m.db.playlists.find? (fun p => p.title == title), m)

/-- get_or_create_playlist: return the first match by title; if absent,
construct a playlist with the current timestamp, empty description and
downloaded=False, add it, and commit. -/
def get_or_create_playlist (m : PlaylistManager) (title : String) :
    Playlist × PlaylistManager :=
  match (get_playlist m title).1 with
  | some p => (p, m)
  | none =>
    let p : Playlist :=
      { id := m.db.next_playlist_id, title := title, description := "",
        date_created := m.clock, downloaded := false }
    let db' : DB :=
      { m.db with
        playlists := m.db.playlists ++ [p]
        next_playlist_id := m.db.next_playlist_id + 1 }
    (p, ({ m with db := db' }).commit)

/-- playlist_exists: whether get_playlist finds a row. -/
def playlist_exists (m : PlaylistManager) (title : String) :
    Bool × PlaylistManager :=
  ((get_playlist m title).1.isSome, m)

/-- rename_playlist: silent no-op on a null playlist; otherwise set the
title, merge, and commit. -/
def rename_playlist (m : PlaylistManager) (playlist : Option Playlist)
    (new_title : String) : PlaylistManager :=
  match playlist with
  | none => m
  | some p =>
    ({ m with db := mergePlaylist m.db { p with title := new_title } }).commit

/-- edit_playlist_description: silent no-op on a null playlist; otherwise
set the description, merge, and commit. -/
def edit_playlist_description (m : PlaylistManager) (playlist : Option Playlist)
    (new_description : String) : PlaylistManager :=
  match playlist with
  | none => m
  | some p =>
    ({ m with db := mergePlaylist m.db { p with description := new_description } }).commit

/-- delete_playlist: silent no-op on a null playlist; otherwise delete the
row with that primary key — which also deletes the association rows of the
secondary relationship — and commit. Tracks are untouched. -/
def delete_playlist (m : PlaylistManager) (playlist : Option Playlist) :
    PlaylistManager :=
  match playlist with
  | none => m
  | some p =>
    ({ m with db := { m.db with
        playlists := m.db.playlists.filter (fun x => x.id != p.id),
        playlist_track := m.db.playlist_track.filter (fun r => r.1 != p.id) } }).commit

/-- add_track_to_playlist: no null guard — track.playlists is dereferenced
unconditionally, so a null track raises (the error branch). If the playlist
is already in the membership view the call returns without committing;
otherwise the association row is appended and the session committed. -/
def add_track_to_playlist (m : PlaylistManager) (track : Option Track)
    (playlist : Playlist) : Except String PlaylistManager :=
  match track with
  | none => Except.error "AttributeError: NoneType object has no attribute playlists"
  | some t =>
    if playlist ∈ m.db.trackPlaylists t then
      Except.ok m
    else
      Except.ok (({ m with db := { m.db with
        playlist_track := m.db.playlist_track ++ [(playlist.id, t.id)] } }).commit)

/-- create_and_add_track_to_playlist: get-or-create the track, then add it
to the playlist. -/
def create_and_add_track_to_playlist (m : PlaylistManager)
    (title artist album : String) (duration : Int) (stream_url : String)
    (playlist : Playlist) (cover_art_url : Option String) :
    Except String (Track × PlaylistManager) :=
  let r := get_or_create_track m title artist album duration stream_url cover_art_url
  match add_track_to_playlist r.2 (some r.1) playlist with
  | Except.error e => Except.error e
  | Except.ok m2 => Except.ok (r.1, m2)

/-- add_track_to_liked_songs: get-or-create the reserved "Liked Songs"
playlist, then add the track to it. -/
def add_track_to_liked_songs (m : PlaylistManager) (track : Option Track) :
    Except String PlaylistManager :=
  let r := get_or_create_playlist m "Liked Songs"
  add_track_to_playlist r.2 track r.1

/-- create_and_add_track_to_liked_songs: get-or-create "Liked Songs", then
create-and-add the track to it. -/
def create_and_add_track_to_liked_songs (m : PlaylistManager)
    (title artist album : String) (duration : Int) (stream_url : String)
    (cover_art_url : Option String) : Except String (Track × PlaylistManager) :=
  let r := get_or_create_playlist m "Liked Songs"
  create_and_add_track_to_playlist r.2 title artist album duration stream_url r.1 cover_art_url

/-- remove_track_from_playlist: no null guard on the track. When the
playlist is in the membership view, remove the association row and commit;
otherwise return without committing. -/
def remove_track_from_playlist (m : PlaylistManager) (track : Option Track)
    (playlist : Playlist) : Except String PlaylistManager :=
  match track with
  | none => Except.error "AttributeError: NoneType object has no attribute playlists"
  | some t =>
    if playlist ∈ m.db.trackPlaylists t then
      Except.ok (({ m with db := { m.db with
        playlist_track := m.db.playlist_track.erase (playlist.id, t.id) } }).commit)
    else
      Except.ok m

/-- remove_track_from_liked_songs: get-or-create "Liked Songs", then remove
the track from it. -/
def remove_track_from_liked_songs (m : PlaylistManager) (track : Option Track) :
    Except String PlaylistManager :=
  let r := get_or_create_playlist m "Liked Songs"
  remove_track_from_playlist r.2 track r.1

/-- track_is_liked: get-or-create "Liked Songs" (evaluated first, as the
left operand of the membership test), then test membership in
track.playlists — dereferenced with no null guard. -/
def track_is_liked (m : PlaylistManager) (track : Option Track) :
    Except String (Bool × PlaylistManager) :=
  let r := get_or_create_playlist m "Liked Songs"
  match track with
  | none => Except.error "AttributeError: NoneType object has no attribute playlists"
  | some t => Except.ok (decide (r.1 ∈ r.2.db.trackPlaylists t), r.2)

/-- open_session: no-op when a session is open and active; otherwise bind a
fresh session. -/
def open_session (m : PlaylistManager) : PlaylistManager :=
  if m.session_open then m else { m with session_open := true }

/-- commit_session: commit the current session. -/
def commit_session (m : PlaylistManager) : PlaylistManager :=
  m.commit

/-- close_session: session.close() releases the transactional resources,
discarding uncommitted changes; the session object remains usable — the next
operation transparently begins a new transaction (the module smoke test
queries playlists right after closing). -/
def close_session (m : PlaylistManager) : PlaylistManager :=
  { m with db := m.committed, session_open := false }

/-! Sample store states used to witness theorems with hypotheses and to give
concrete counterexamples. -/

/-- A sample track, as created by get_or_create_track. -/
def sampleTrack : Track :=
  { id := 1, title := "Song A", artist := "Artist A", album := "Album A",
    duration := 200, path := none, stream := some { url := "http://stream/a" },
    liked := false, cover_art_url := "" }

/-- A sample playlist, as created by get_or_create_playlist. -/
def samplePlaylist : Playlist :=
  { id := 1, title := "Chill", description := "", date_created := 0,
    downloaded := false }

/-- A sample store holding one playlist and one track, not yet linked. -/
def sampleDB : DB :=
  { playlists := [samplePlaylist], tracks := [sampleTrack],
    playlist_track := [], next_playlist_id := 2, next_track_id := 2 }

/-- A manager freshly opened over the sample store. -/
def sampleMgr : PlaylistManager := manager_init sampleDB 0

/-- A manager over the sample store with the sample track linked to the
sample playlist. -/
def linkedMgr : PlaylistManager :=
  manager_init
    { playlists := [samplePlaylist], tracks := [sampleTrack],
      playlist_track := [(samplePlaylist.id, sampleTrack.id)],
      next_playlist_id := 2, next_track_id := 2 } 0

/-- C1: get_or_create_playlist is idempotent — calling it twice with the same
title returns the same playlist entity both times, and the second call
changes nothing (in particular it creates no duplicate playlist row). -/
theorem C1_get_or_create_playlist_idempotent (m : PlaylistManager) (t : String) :
    (get_or_create_playlist (get_or_create_playlist m t).2 t).1 =
      (get_or_create_playlist m t).1 ∧
    (get_or_create_playlist (get_or_create_playlist m t).2 t).2 =
      (get_or_create_playlist m t).2 := by
  cases h : m.db.playlists.find? (fun p => p.title == t) with
  | some p =>
    simp [get_or_create_playlist, get_playlist, h]
  | none =>
    simp [get_or_create_playlist, get_playlist, h, List.find?_append,
      PlaylistManager.commit]

/-- C7: passing None to the guarded mutators rename_playlist,
edit_playlist_description, delete_playlist and add_track_cover_art returns
with no error and leaves the whole manager state (live view, committed
snapshot, commit count) unchanged. -/
theorem C7_null_mutators_are_noops (m : PlaylistManager) (s u : String) :
    rename_playlist m none s = m ∧
    edit_playlist_description m none s = m ∧
    delete_playlist m none = m ∧
    add_track_cover_art m none u = m :=
  ⟨rfl, rfl, rfl, rfl⟩

/-- C10: the membership operations have no null guard — passing None as the
track to add_track_to_playlist, remove_track_from_playlist,
add_track_to_liked_songs, remove_track_from_liked_songs or track_is_liked
raises (the AttributeError branch) instead of being a silent no-op. -/
theorem C10_null_track_membership_raises (m : PlaylistManager) (p : Playlist) :
    (∃ e, add_track_to_playlist m none p = Except.error e) ∧
    (∃ e, remove_track_from_playlist m none p = Except.error e) ∧
    (∃ e, add_track_to_liked_songs m none = Except.error e) ∧
    (∃ e, remove_track_from_liked_songs m none = Except.error e) ∧
    (∃ e, track_is_liked m none = Except.error e) :=
  ⟨⟨_, rfl⟩, ⟨_, rfl⟩, ⟨_, rfl⟩, ⟨_, rfl⟩, ⟨_, rfl⟩⟩

/-- Helper: in a track table whose ids are pairwise distinct, looking up a
member track by its id finds exactly that track. -/
theorem find?_by_id_of_nodup (l : List Track) (t : Track)
    (hn : (l.map Track.id).Nodup) (ht : t ∈ l) :
    l.find? (fun x => x.id == t.id) = some t := by
  induction l with
  | nil => cases ht
  | cons a l ih =>
    rw [List.map_cons, List.nodup_cons] at hn
    rcases List.mem_cons.mp ht with rfl | ht'
    · exact List.find?_cons_of_pos _ (by simp)
    · have hne : (a.id == t.id) = false := by
        refine beq_eq_false_iff_ne.mpr ?_
        intro he
        exact hn.1 (he ▸ List.mem_map_of_mem Track.id ht')
      simp only [List.find?, hne]
      exact ih hn.2 ht'

/-- C2: membership is a set — for a persisted playlist P, adding a track
twice yields exactly the state of a single add (the second add is a no-op,
so the membership cardinality of P is unchanged), and removing a track that
is not a member of P leaves the manager state entirely unchanged. -/
theorem C2_membership_set_semantics (m : PlaylistManager) (t : Track)
    (p : Playlist) (hp : p ∈ m.db.playlists) :
    (∃ m1, add_track_to_playlist m (some t) p = Except.ok m1 ∧
           add_track_to_playlist m1 (some t) p = Except.ok m1) ∧
    ((p.id, t.id) ∉ m.db.playlist_track →
      remove_track_from_playlist m (some t) p = Except.ok m) := by
  constructor
  · by_cases h : p ∈ m.db.trackPlaylists t
    · exact ⟨m, by simp [add_track_to_playlist, h],
                by simp [add_track_to_playlist, h]⟩
    · refine ⟨({ m with db := { m.db with
          playlist_track := m.db.playlist_track ++ [(p.id, t.id)] } }).commit,
        by simp [add_track_to_playlist, h], ?_⟩
      have h2 : p ∈ (DB.trackPlaylists
          { m.db with playlist_track := m.db.playlist_track ++ [(p.id, t.id)] } t) := by
        simp [DB.trackPlaylists, List.mem_filter, hp]
      simp [add_track_to_playlist, PlaylistManager.commit, h2]
  · intro hnm
    have h : ¬ p ∈ m.db.trackPlaylists t := by
      intro hc
      rcases List.mem_filter.mp hc with ⟨-, hd⟩
      exact hnm (of_decide_eq_true hd)
    simp [remove_track_from_playlist, h]

/-- C2 witness: the sample playlist is persisted in the sample store, so the
idempotent-add and vacuous-remove properties hold there concretely. -/
theorem C2_membership_set_semantics_witness :
    (∃ m1, add_track_to_playlist sampleMgr (some sampleTrack) samplePlaylist =
             Except.ok m1 ∧
           add_track_to_playlist m1 (some sampleTrack) samplePlaylist =
             Except.ok m1) ∧
    ((samplePlaylist.id, sampleTrack.id) ∉ sampleMgr.db.playlist_track →
      remove_track_from_playlist sampleMgr (some sampleTrack) samplePlaylist =
        Except.ok sampleMgr) :=
  C2_membership_set_semantics sampleMgr sampleTrack samplePlaylist (by decide)

/-- C9: deleting a playlist removes its row and every association row that
pairs it with a track, leaves the track table unchanged, and every track
that was a member persists and is still returned by get_track on its id. -/
theorem C9_delete_playlist_frame (m : PlaylistManager) (p : Playlist)
    (t : Track) (ht : t ∈ m.db.tracks)
    (_hmem : (p.id, t.id) ∈ m.db.playlist_track) (hid : t.id ≠ 0)
    (hn : (m.db.tracks.map Track.id).Nodup) :
    (delete_playlist m (some p)).db.tracks = m.db.tracks ∧
    p ∉ (delete_playlist m (some p)).db.playlists ∧
    (∀ tid, (p.id, tid) ∉ (delete_playlist m (some p)).db.playlist_track) ∧
    t ∈ (delete_playlist m (some p)).db.tracks ∧
    (get_track (delete_playlist m (some p)) none (some t.id)).1 = some t := by
  refine ⟨rfl, ?_, ?_, ht, ?_⟩
  · intro hc
    rcases List.mem_filter.mp hc with ⟨-, hd⟩
    simp at hd
  · intro tid hc
    rcases List.mem_filter.mp hc with ⟨-, hd⟩
    simp at hd
  · have : truthyNat (some t.id) = true := by
      simpa [truthyNat] using hid
    simp [get_track, delete_playlist, PlaylistManager.commit, truthyStr, this,
      find?_by_id_of_nodup m.db.tracks t hn ht]

/-- C9 witness: concrete deletion of the sample playlist after linking the
sample track to it. -/
theorem C9_delete_playlist_frame_witness :
    (delete_playlist linkedMgr (some samplePlaylist)).db.tracks =
      linkedMgr.db.tracks ∧
    samplePlaylist ∉ (delete_playlist linkedMgr (some samplePlaylist)).db.playlists ∧
    (∀ tid, (samplePlaylist.id, tid) ∉
      (delete_playlist linkedMgr (some samplePlaylist)).db.playlist_track) ∧
    sampleTrack ∈ (delete_playlist linkedMgr (some samplePlaylist)).db.tracks ∧
    (get_track (delete_playlist linkedMgr (some samplePlaylist)) none
      (some sampleTrack.id)).1 = some sampleTrack :=
  C9_delete_playlist_frame linkedMgr samplePlaylist sampleTrack (by decide)
    (by decide) (by decide) (by decide)

/-- A track persisted with the empty string as its title (reachable:
get_or_create_track never finds a falsy title, so it creates such a row). -/
def emptyTitleTrack : Track :=
  { id := 1, title := "", artist := "Artist A", album := "Album A",
    duration := 200, path := none,
    stream := some { url := "http://stream/a" }, liked := false,
    cover_art_url := "" }

/-- A manager over a store holding only the empty-titled track. -/
def emptyTitleMgr : PlaylistManager :=
  manager_init
    { playlists := [], tracks := [emptyTitleTrack], playlist_track := [],
      next_playlist_id := 1, next_track_id := 2 } 0

/-- C3 counterexample: with an existing track whose title is the empty
string, get_or_create_track with that same (empty) title does not return the
existing track — the truthiness test in get_track skips the title lookup, so
a duplicate row is created and a fresh entity returned. -/
theorem C3_cex_empty_title_creates_duplicate :
    (get_or_create_track emptyTitleMgr "" "Artist B" "Album A" 200
        "http://stream/a" none).1 ≠ emptyTitleTrack ∧
    (get_or_create_track emptyTitleMgr "" "Artist B" "Album A" 200
        "http://stream/a" none).2.db.tracks.length = 2 := by
  decide

/-- C3 amended: for every NON-EMPTY title, get_or_create_track returns the
already-existing first title match unchanged (all other arguments are
ignored on that path and the state is untouched); when no match exists it
constructs a track with the given fields, an empty playlist list and a
stream for the url, and persists it; a second call with the same title but
a different artist returns the first call entity and changes nothing. -/
theorem C3_amended_title_dedup_nonempty (m : PlaylistManager)
    (ti artist album : String) (d : Int) (su : String) (cov : Option String)
    (hti : ti ≠ "")
    (hB : ∀ r ∈ m.db.playlist_track, r.2 < m.db.next_track_id) :
    (∀ tr, m.db.tracks.find? (fun x => x.title == ti) = some tr →
      get_or_create_track m ti artist album d su cov = (tr, m)) ∧
    (m.db.tracks.find? (fun x => x.title == ti) = none →
      (get_or_create_track m ti artist album d su cov).1.title = ti ∧
      (get_or_create_track m ti artist album d su cov).1.artist = artist ∧
      (get_or_create_track m ti artist album d su cov).1.album = album ∧
      (get_or_create_track m ti artist album d su cov).1.duration = d ∧
      (get_or_create_track m ti artist album d su cov).1.stream =
        some { url := su } ∧
      (get_or_create_track m ti artist album d su cov).2.db.tracks =
        m.db.tracks ++ [(get_or_create_track m ti artist album d su cov).1] ∧
      (get_or_create_track m ti artist album d su cov).2.db.playlist_track =
        m.db.playlist_track ∧
      (get_or_create_track m ti artist album d su cov).2.db.trackPlaylists
        (get_or_create_track m ti artist album d su cov).1 = []) ∧
    (∀ artist2,
      get_or_create_track (get_or_create_track m ti artist album d su cov).2
          ti artist2 album d su cov =
        ((get_or_create_track m ti artist album d su cov).1,
         (get_or_create_track m ti artist album d su cov).2)) := by
  have htrue : truthyStr (some ti) = true := by
    simpa [truthyStr] using hti
  cases h : m.db.tracks.find? (fun x => x.title == ti) with
  | some tr =>
    refine ⟨?_, ?_, ?_⟩
    · intro tr' htr'
      injection htr' with he
      subst he
      simp [get_or_create_track, get_track, htrue, h]
    · intro hnone
      exact Option.noConfusion hnone
    · intro artist2
      simp [get_or_create_track, get_track, htrue, h]
  | none =>
    refine ⟨?_, ?_, ?_⟩
    · intro tr' htr'
      exact Option.noConfusion htr'
    · intro _
      refine ⟨by simp [get_or_create_track, get_track, htrue, h],
              by simp [get_or_create_track, get_track, htrue, h],
              by simp [get_or_create_track, get_track, htrue, h],
              by simp [get_or_create_track, get_track, htrue, h],
              by simp [get_or_create_track, get_track, htrue, h],
              by simp [get_or_create_track, get_track, htrue, h,
                PlaylistManager.commit],
              by simp [get_or_create_track, get_track, htrue, h,
                PlaylistManager.commit], ?_⟩
      simp only [get_or_create_track, get_track, Option.getD_some, htrue,
        if_true, h, PlaylistManager.commit, DB.trackPlaylists]
      refine List.filter_eq_nil_iff.mpr ?_
      intro q _
      simp only [decide_eq_true_eq]
      intro hpair
      exact absurd (hB _ hpair) (by simp)
    · intro artist2
      simp [get_or_create_track, get_track, htrue, h, List.find?_append,
        PlaylistManager.commit]

/-- C3 witness: on the sample store, whose only track is "Song A", the
amended dedup-by-title properties hold concretely for the title "Song B". -/
theorem C3_amended_title_dedup_nonempty_witness :
    (∀ tr, sampleMgr.db.tracks.find? (fun x => x.title == "Song B") = some tr →
      get_or_create_track sampleMgr "Song B" "Artist A" "Album A" 200
        "http://stream/b" none = (tr, sampleMgr)) ∧
    (sampleMgr.db.tracks.find? (fun x => x.title == "Song B") = none →
      (get_or_create_track sampleMgr "Song B" "Artist A" "Album A" 200
        "http://stream/b" none).1.title = "Song B" ∧
      (get_or_create_track sampleMgr "Song B" "Artist A" "Album A" 200
        "http://stream/b" none).1.artist = "Artist A" ∧
      (get_or_create_track sampleMgr "Song B" "Artist A" "Album A" 200
        "http://stream/b" none).1.album = "Album A" ∧
      (get_or_create_track sampleMgr "Song B" "Artist A" "Album A" 200
        "http://stream/b" none).1.duration = 200 ∧
      (get_or_create_track sampleMgr "Song B" "Artist A" "Album A" 200
        "http://stream/b" none).1.stream = some { url := "http://stream/b" } ∧
      (get_or_create_track sampleMgr "Song B" "Artist A" "Album A" 200
        "http://stream/b" none).2.db.tracks =
        sampleMgr.db.tracks ++
          [(get_or_create_track sampleMgr "Song B" "Artist A" "Album A" 200
            "http://stream/b" none).1] ∧
      (get_or_create_track sampleMgr "Song B" "Artist A" "Album A" 200
        "http://stream/b" none).2.db.playlist_track =
        sampleMgr.db.playlist_track ∧
      (get_or_create_track sampleMgr "Song B" "Artist A" "Album A" 200
        "http://stream/b" none).2.db.trackPlaylists
        (get_or_create_track sampleMgr "Song B" "Artist A" "Album A" 200
          "http://stream/b" none).1 = []) ∧
    (∀ artist2,
      get_or_create_track (get_or_create_track sampleMgr "Song B" "Artist A"
          "Album A" 200 "http://stream/b" none).2 "Song B" artist2 "Album A"
          200 "http://stream/b" none =
        ((get_or_create_track sampleMgr "Song B" "Artist A" "Album A" 200
          "http://stream/b" none).1,
         (get_or_create_track sampleMgr "Song B" "Artist A" "Album A" 200
          "http://stream/b" none).2)) :=
  C3_amended_title_dedup_nonempty sampleMgr "Song B" "Artist A" "Album A" 200
    "http://stream/b" none (by decide) (by decide)

/-- A track with a non-empty title, sharing a store with an empty-titled
track, used to exhibit the get_track tie-break on an empty title. -/
def dupTrackA : Track :=
  { id := 1, title := "a", artist := "Artist A", album := "Album A",
    duration := 100, path := none, stream := some { url := "http://stream/a" },
    liked := false, cover_art_url := "" }

/-- An empty-titled track stored after dupTrackA. -/
def dupTrackB : Track :=
  { id := 2, title := "", artist := "Artist B", album := "Album B",
    duration := 150, path := none, stream := some { url := "http://stream/b" },
    liked := false, cover_art_url := "" }

/-- A manager over a store holding dupTrackA then dupTrackB. -/
def dupTitleMgr : PlaylistManager :=
  manager_init
    { playlists := [], tracks := [dupTrackA, dupTrackB], playlist_track := [],
      next_playlist_id := 1, next_track_id := 3 } 0

/-- C5 counterexample: with both a title and an id supplied, the title does
not always take precedence — an empty title is falsy, so the lookup falls
through to the id branch and returns dupTrackA, not the first track whose
title matches the supplied (empty) title, which is dupTrackB. -/
theorem C5_cex_empty_title_falls_to_id :
    (get_track dupTitleMgr (some "") (some 1)).1 = some dupTrackA ∧
    dupTitleMgr.db.tracks.find? (fun x => x.title == "") = some dupTrackB ∧
    dupTrackA ≠ dupTrackB := by
  decide

/-- C5 amended: when the supplied title is non-empty it takes precedence
over any id argument and the result is the first track matching the title;
when no title is supplied and the supplied id is non-zero the result is the
first track matching the id; when the lookup finds no matching row the
result is None rather than a failure. -/
theorem C5_amended_get_track_lookup (m : PlaylistManager) (ti : String)
    (i : Option Nat) (j : Nat) (hti : ti ≠ "") (hj : j ≠ 0) :
    (get_track m (some ti) i).1 = m.db.tracks.find? (fun x => x.title == ti) ∧
    (get_track m none (some j)).1 = m.db.tracks.find? (fun x => x.id == j) ∧
    (m.db.tracks.find? (fun x => x.title == ti) = none →
      (get_track m (some ti) i).1 = none) ∧
    (m.db.tracks.find? (fun x => x.id == j) = none →
      (get_track m none (some j)).1 = none) := by
  have h1 : truthyStr (some ti) = true := by simpa [truthyStr] using hti
  have h2 : truthyNat (some j) = true := by simpa [truthyNat] using hj
  refine ⟨by simp [get_track, h1], by simp [get_track, truthyStr, h2], ?_, ?_⟩
  · intro hn
    simp [get_track, h1, hn]
  · intro hn
    simp [get_track, truthyStr, h2, hn]

/-- C5 witness: the amended lookup rules hold concretely on the sample
store, with title "Song A" and id 1. -/
theorem C5_amended_get_track_lookup_witness :
    (get_track sampleMgr (some "Song A") (some 5)).1 =
      sampleMgr.db.tracks.find? (fun x => x.title == "Song A") ∧
    (get_track sampleMgr none (some 1)).1 =
      sampleMgr.db.tracks.find? (fun x => x.id == 1) ∧
    (sampleMgr.db.tracks.find? (fun x => x.title == "Song A") = none →
      (get_track sampleMgr (some "Song A") (some 5)).1 = none) ∧
    (sampleMgr.db.tracks.find? (fun x => x.id == 1) = none →
      (get_track sampleMgr none (some 1)).1 = none) :=
  C5_amended_get_track_lookup sampleMgr "Song A" (some 5) 1 (by decide)
    (by decide)

/-- Helper: when a playlist with the requested title is already the first
title match, get_or_create_playlist returns it and changes nothing. -/
theorem goc_found (m : PlaylistManager) (s : String) (L : Playlist)
    (hL : m.db.playlists.find? (fun p => p.title == s) = some L) :
    get_or_create_playlist m s = (L, m) := by
  simp [get_or_create_playlist, get_playlist, hL]

/-- Helper: the liked-songs add/remove cycle for a manager whose first
"Liked Songs" title match is L and whose association table does not pair L
with the track t. -/
theorem liked_cycle_core (m : PlaylistManager) (t : Track) (L : Playlist)
    (hL : m.db.playlists.find? (fun p => p.title == "Liked Songs") = some L)
    (hnp : (L.id, t.id) ∉ m.db.playlist_track) :
    track_is_liked m (some t) = Except.ok (false, m) ∧
    ∃ m2, add_track_to_liked_songs m (some t) = Except.ok m2 ∧
          track_is_liked m2 (some t) = Except.ok (true, m2) ∧
          ∃ m3, remove_track_from_liked_songs m2 (some t) = Except.ok m3 ∧
                track_is_liked m3 (some t) = Except.ok (false, m3) := by
  have hgoc : get_or_create_playlist m "Liked Songs" = (L, m) :=
    goc_found _ _ _ hL
  have hnot1 : ¬ L ∈ m.db.trackPlaylists t := fun hc =>
    hnp (of_decide_eq_true (List.mem_filter.mp hc).2)
  have hLmem : L ∈ m.db.playlists := List.mem_of_find?_eq_some hL
  constructor
  · simp [track_is_liked, hgoc, hnot1]
  · set m2 : PlaylistManager := ({ m with db := { m.db with
        playlist_track := m.db.playlist_track ++ [(L.id, t.id)] } }).commit
      with hm2
    have hm2pl : m2.db.playlists = m.db.playlists := by
      simp [hm2, PlaylistManager.commit]
    have hm2pt : m2.db.playlist_track = m.db.playlist_track ++ [(L.id, t.id)] := by
      simp [hm2, PlaylistManager.commit]
    have hfind2 : m2.db.playlists.find? (fun p => p.title == "Liked Songs") =
        some L := by
      rw [hm2pl]; exact hL
    have hgoc2 : get_or_create_playlist m2 "Liked Songs" = (L, m2) :=
      goc_found _ _ _ hfind2
    have hmem2 : L ∈ m2.db.trackPlaylists t := by
      refine List.mem_filter.mpr ⟨by rw [hm2pl]; exact hLmem, ?_⟩
      simp [hm2pt]
    refine ⟨m2, ?_, ?_, ?_⟩
    · have hstep : add_track_to_liked_songs m (some t) =
          add_track_to_playlist m (some t) L := by
        simp [add_track_to_liked_songs, hgoc]
      rw [hstep]
      simp only [add_track_to_playlist]
      rw [if_neg hnot1, hm2]
    · simp [track_is_liked, hgoc2, hmem2]
    · set m3 : PlaylistManager := ({ m2 with db := { m2.db with
          playlist_track := m2.db.playlist_track.erase (L.id, t.id) } }).commit
        with hm3
      have herase : (m.db.playlist_track ++ [(L.id, t.id)]).erase (L.id, t.id) =
          m.db.playlist_track := by
        rw [List.erase_append_right _ hnp]
        simp
      have hm3pl : m3.db.playlists = m.db.playlists := by
        simp [hm3, PlaylistManager.commit, hm2pl]
      have hm3pt : m3.db.playlist_track = m.db.playlist_track := by
        simp [hm3, PlaylistManager.commit, hm2pt, herase]
      have hfind3 : m3.db.playlists.find? (fun p => p.title == "Liked Songs") =
          some L := by
        rw [hm3pl]; exact hL
      have hgoc3 : get_or_create_playlist m3 "Liked Songs" = (L, m3) :=
        goc_found _ _ _ hfind3
      have hnot3 : ¬ L ∈ m3.db.trackPlaylists t := by
        intro hc
        have hd := of_decide_eq_true (List.mem_filter.mp hc).2
        rw [hm3pt] at hd
        exact hnp hd
      refine ⟨m3, ?_, ?_⟩
      · have hstep : remove_track_from_liked_songs m2 (some t) =
            remove_track_from_playlist m2 (some t) L := by
          simp [remove_track_from_liked_songs, hgoc2]
        rw [hstep]
        simp only [remove_track_from_playlist]
        rw [if_pos hmem2, hm3]
      · simp [track_is_liked, hgoc3, hnot3]

/-- C4: for a track not paired with any "Liked Songs"-titled playlist,
track_is_liked is false; after add_track_to_liked_songs it is true; after
remove_track_from_liked_songs it is false again. The "Liked Songs" playlist
exists right after the first operation that references it, while manager
initialization adds nothing to the store. -/
theorem C4_liked_songs_lifecycle (m : PlaylistManager) (t : Track)
    (hA : ∀ p ∈ m.db.playlists, p.title = "Liked Songs" →
      (p.id, t.id) ∉ m.db.playlist_track)
    (hB : ∀ r ∈ m.db.playlist_track, r.1 < m.db.next_playlist_id) :
    (∃ m1, track_is_liked m (some t) = Except.ok (false, m1) ∧
           (playlist_exists m1 "Liked Songs").1 = true) ∧
    (∃ m2, add_track_to_liked_songs m (some t) = Except.ok m2 ∧
           track_is_liked m2 (some t) = Except.ok (true, m2) ∧
           ∃ m3, remove_track_from_liked_songs m2 (some t) = Except.ok m3 ∧
                 track_is_liked m3 (some t) = Except.ok (false, m3)) ∧
    (∀ stored clock, (manager_init stored clock).db = stored) := by
  cases hL : m.db.playlists.find? (fun p => p.title == "Liked Songs") with
  | some L =>
    have hLmem : L ∈ m.db.playlists := List.mem_of_find?_eq_some hL
    have hLtitle : L.title = "Liked Songs" := by
      have := List.find?_some hL
      simpa using this
    have hnp : (L.id, t.id) ∉ m.db.playlist_track := hA L hLmem hLtitle
    obtain ⟨h1, hrest⟩ := liked_cycle_core m t L hL hnp
    refine ⟨⟨m, h1, ?_⟩, hrest, fun _ _ => rfl⟩
    simp [playlist_exists, get_playlist, hL]
  | none =>
    set LS : Playlist := ⟨m.db.next_playlist_id, "Liked Songs", "", m.clock, false⟩ with hLS
    set mA : PlaylistManager := ({ m with db := { m.db with playlists := m.db.playlists ++ [LS], next_playlist_id := m.db.next_playlist_id + 1 } }).commit with hmA
    have hgoc : get_or_create_playlist m "Liked Songs" = (LS, mA) := by
      simp [get_or_create_playlist, get_playlist, hL, hLS, hmA]
    have hfindA : mA.db.playlists.find? (fun p => p.title == "Liked Songs") =
        some LS := by
      simp [hmA, PlaylistManager.commit, List.find?_append, hL, hLS]
    have hptA : mA.db.playlist_track = m.db.playlist_track := by
      simp [hmA, PlaylistManager.commit]
    have hnpA : (LS.id, t.id) ∉ mA.db.playlist_track := by
      rw [hptA]
      intro hc
      exact absurd (hB _ hc) (by simp [hLS])
    have hnotm : ¬ LS ∈ mA.db.trackPlaylists t := by
      intro hc
      exact hnpA (of_decide_eq_true (List.mem_filter.mp hc).2)
    obtain ⟨-, hrest⟩ := liked_cycle_core mA t LS hfindA hnpA
    have hadd : add_track_to_liked_songs m (some t) =
        add_track_to_liked_songs mA (some t) := by
      simp [add_track_to_liked_songs, hgoc, goc_found mA "Liked Songs" LS hfindA]
    refine ⟨⟨mA, ?_, ?_⟩, ?_, fun _ _ => rfl⟩
    · simp [track_is_liked, hgoc, hnotm]
    · simp [playlist_exists, get_playlist, hfindA]
    · rw [hadd]
      exact hrest

/-- C4 witness: the liked-songs lifecycle holds concretely on the sample
store (whose only playlist is "Chill", so the sample track is initially
subject to no liked pairing). -/
theorem C4_liked_songs_lifecycle_witness :
    (∃ m1, track_is_liked sampleMgr (some sampleTrack) =
             Except.ok (false, m1) ∧
           (playlist_exists m1 "Liked Songs").1 = true) ∧
    (∃ m2, add_track_to_liked_songs sampleMgr (some sampleTrack) =
             Except.ok m2 ∧
           track_is_liked m2 (some sampleTrack) = Except.ok (true, m2) ∧
           ∃ m3, remove_track_from_liked_songs m2 (some sampleTrack) =
                   Except.ok m3 ∧
                 track_is_liked m3 (some sampleTrack) =
                   Except.ok (false, m3)) ∧
    (∀ stored clock, (manager_init stored clock).db = stored) :=
  C4_liked_songs_lifecycle sampleMgr sampleTrack (by decide) (by decide)

/-- C8 counterexample: operations on a closed session do not fail. Closing
the sample manager and then calling get_or_create_playlist succeeds,
persists the playlist, and playlist_exists afterwards confirms it — as the
module smoke test does when it queries playlists right after closing. -/
theorem C8_cex_closed_session_ops_succeed :
    (close_session sampleMgr).session_open = false ∧
    (get_or_create_playlist (close_session sampleMgr) "Road Trip").1.title =
      "Road Trip" ∧
    (playlist_exists
      (get_or_create_playlist (close_session sampleMgr) "Road Trip").2
      "Road Trip").1 = true := by
  decide

/-- C8 amended: close_session releases the session resources (discarding
any uncommitted changes) but does not invalidate the session — subsequent
operations transparently begin a new transaction over the committed state
and behave exactly as before closing, rather than failing. -/
theorem C8_amended_closed_session_reuse (m : PlaylistManager) (s : String)
    (hm : m.committed = m.db) :
    (close_session m).session_open = false ∧
    (get_playlist (close_session m) s).1 = (get_playlist m s).1 ∧
    (playlist_exists (close_session m) s).1 = (playlist_exists m s).1 ∧
    (get_or_create_playlist (close_session m) s).1 =
      (get_or_create_playlist m s).1 ∧
    (get_or_create_playlist (close_session m) s).2.db =
      (get_or_create_playlist m s).2.db := by
  have hdb : (close_session m).db = m.db := hm
  refine ⟨rfl, by simp [get_playlist, hdb], by simp [playlist_exists, get_playlist, hdb], ?_, ?_⟩
  all_goals cases h : m.db.playlists.find? (fun p => p.title == s) with
  | some p =>
    simp [get_or_create_playlist, get_playlist, hdb, hm, h, close_session]
  | none =>
    simp [get_or_create_playlist, get_playlist, hdb, hm, h, close_session,
      PlaylistManager.commit]

/-- C8 witness: the closed-session reuse behavior holds concretely on the
freshly initialized sample manager (whose committed snapshot matches its
live view). -/
theorem C8_amended_closed_session_reuse_witness :
    (close_session sampleMgr).session_open = false ∧
    (get_playlist (close_session sampleMgr) "Chill").1 =
      (get_playlist sampleMgr "Chill").1 ∧
    (playlist_exists (close_session sampleMgr) "Chill").1 =
      (playlist_exists sampleMgr "Chill").1 ∧
    (get_or_create_playlist (close_session sampleMgr) "Chill").1 =
      (get_or_create_playlist sampleMgr "Chill").1 ∧
    (get_or_create_playlist (close_session sampleMgr) "Chill").2.db =
      (get_or_create_playlist sampleMgr "Chill").2.db :=
  C8_amended_closed_session_reuse sampleMgr "Chill" rfl

/-- Helper: after get_or_create_playlist the committed snapshot equals the
live view, provided it did before. -/
theorem goc_commit_inv (m : PlaylistManager) (s : String)
    (hm : m.committed = m.db) :
    (get_or_create_playlist m s).2.committed =
      (get_or_create_playlist m s).2.db := by
  cases h : m.db.playlists.find? (fun p => p.title == s) with
  | some p => simpa [get_or_create_playlist, get_playlist, h] using hm
  | none =>
    simp [get_or_create_playlist, get_playlist, h, PlaylistManager.commit]

/-- Helper: add_track_to_playlist commits any mutation it makes — the
result state has no pending changes if the input state had none. -/
theorem add_ttp_commit_inv (m : PlaylistManager) (tr : Option Track)
    (pl : Playlist) (m2 : PlaylistManager) (hm : m.committed = m.db)
    (h : add_track_to_playlist m tr pl = Except.ok m2) :
    m2.committed = m2.db := by
  match tr with
  | none => exact absurd h (by simp [add_track_to_playlist])
  | some t =>
    simp only [add_track_to_playlist] at h
    by_cases hc : pl ∈ m.db.trackPlaylists t
    · rw [if_pos hc] at h
      injection h with h2
      rw [← h2]
      exact hm
    · rw [if_neg hc] at h
      injection h with h2
      rw [← h2]
      simp [PlaylistManager.commit]

/-- Helper: remove_track_from_playlist commits any mutation it makes. -/
theorem remove_ttp_commit_inv (m : PlaylistManager) (tr : Option Track)
    (pl : Playlist) (m2 : PlaylistManager) (hm : m.committed = m.db)
    (h : remove_track_from_playlist m tr pl = Except.ok m2) :
    m2.committed = m2.db := by
  match tr with
  | none => exact absurd h (by simp [remove_track_from_playlist])
  | some t =>
    simp only [remove_track_from_playlist] at h
    by_cases hc : pl ∈ m.db.trackPlaylists t
    · rw [if_pos hc] at h
      injection h with h2
      rw [← h2]
      simp [PlaylistManager.commit]
    · rw [if_neg hc] at h
      injection h with h2
      rw [← h2]
      exact hm

/-- C6 counterexample: track_is_liked is not read-only. On the sample store,
which has no "Liked Songs" playlist, it creates and commits one: the
persisted state changes and the commit count rises from 0 to 1. -/
theorem C6_cex_track_is_liked_commits :
    ((track_is_liked sampleMgr (some sampleTrack)).toOption.map
      (fun r => r.2.db == sampleMgr.db)) = some false ∧
    ((track_is_liked sampleMgr (some sampleTrack)).toOption.map
      (fun r => r.2.commits)) = some 1 ∧
    sampleMgr.commits = 0 := by
  decide

/-- C6 amended: get_track, get_playlist and playlist_exists do not commit
and leave the state untouched; track_is_liked is likewise read-only when a
"Liked Songs" playlist exists (but lazily creates and commits it when
absent); and every mutating operation commits its unit of work before
returning — afterwards the committed snapshot equals the live view, and the
always-committing guarded mutators bump the commit count by exactly one. -/
theorem C6_amended_commit_discipline (m : PlaylistManager)
    (hm : m.committed = m.db) :
    (∀ ti i, (get_track m ti i).2 = m) ∧
    (∀ s, (get_playlist m s).2 = m) ∧
    (∀ s, (playlist_exists m s).2 = m) ∧
    (∀ t, (playlist_exists m "Liked Songs").1 = true →
      ∃ b, track_is_liked m (some t) = Except.ok (b, m)) ∧
    (∀ ti a al d su c,
      (get_or_create_track m ti a al d su c).2.committed =
        (get_or_create_track m ti a al d su c).2.db) ∧
    (∀ tr u, (add_track_cover_art m tr u).committed =
      (add_track_cover_art m tr u).db) ∧
    (∀ s, (get_or_create_playlist m s).2.committed =
      (get_or_create_playlist m s).2.db) ∧
    (∀ pl s, (rename_playlist m pl s).committed = (rename_playlist m pl s).db) ∧
    (∀ pl s, (edit_playlist_description m pl s).committed =
      (edit_playlist_description m pl s).db) ∧
    (∀ pl, (delete_playlist m pl).committed = (delete_playlist m pl).db) ∧
    (∀ tr pl m2, add_track_to_playlist m tr pl = Except.ok m2 →
      m2.committed = m2.db) ∧
    (∀ tr pl m2, remove_track_from_playlist m tr pl = Except.ok m2 →
      m2.committed = m2.db) ∧
    (∀ tr m2, add_track_to_liked_songs m tr = Except.ok m2 →
      m2.committed = m2.db) ∧
    (∀ tr m2, remove_track_from_liked_songs m tr = Except.ok m2 →
      m2.committed = m2.db) ∧
    (∀ t u, (add_track_cover_art m (some t) u).commits = m.commits + 1) ∧
    (∀ p s, (rename_playlist m (some p) s).commits = m.commits + 1) ∧
    (∀ p s, (edit_playlist_description m (some p) s).commits = m.commits + 1) ∧
    (∀ p, (delete_playlist m (some p)).commits = m.commits + 1) := by
  refine ⟨fun ti i => rfl, fun s => rfl, fun s => rfl, ?_, ?_, ?_, ?_, ?_, ?_,
    ?_, ?_, ?_, ?_, ?_, fun t u => rfl, fun p s => rfl, fun p s => rfl,
    fun p => rfl⟩
  · intro t hex
    have hex' :
        (m.db.playlists.find? (fun p => p.title == "Liked Songs")).isSome = true :=
      hex
    rcases Option.isSome_iff_exists.mp hex' with ⟨L, hL⟩
    refine ⟨decide (L ∈ m.db.trackPlaylists t), ?_⟩
    simp [track_is_liked, goc_found m "Liked Songs" L hL]
  · intro ti a al d su c
    cases h : (get_track m (some ti) none).1 with
    | some tr => simpa [get_or_create_track, h] using hm
    | none => simp [get_or_create_track, h, PlaylistManager.commit]
  · intro tr u
    cases tr with
    | none => exact hm
    | some t => simp [add_track_cover_art, PlaylistManager.commit]
  · exact fun s => goc_commit_inv m s hm
  · intro pl s
    cases pl with
    | none => exact hm
    | some p => simp [rename_playlist, PlaylistManager.commit]
  · intro pl s
    cases pl with
    | none => exact hm
    | some p => simp [edit_playlist_description, PlaylistManager.commit]
  · intro pl
    cases pl with
    | none => exact hm
    | some p => simp [delete_playlist, PlaylistManager.commit]
  · exact fun tr pl m2 h => add_ttp_commit_inv m tr pl m2 hm h
  · exact fun tr pl m2 h => remove_ttp_commit_inv m tr pl m2 hm h
  · intro tr m2 h
    have hA := goc_commit_inv m "Liked Songs" hm
    exact add_ttp_commit_inv _ tr _ m2 hA
      (by simpa [add_track_to_liked_songs] using h)
  · intro tr m2 h
    have hA := goc_commit_inv m "Liked Songs" hm
    exact remove_ttp_commit_inv _ tr _ m2 hA
      (by simpa [remove_track_from_liked_songs] using h)

/-- C6 witness: the amended commit discipline holds concretely on the
freshly initialized sample manager. -/
theorem C6_amended_commit_discipline_witness :
    (∀ ti i, (get_track sampleMgr ti i).2 = sampleMgr) ∧
    (∀ s, (get_playlist sampleMgr s).2 = sampleMgr) ∧
    (∀ s, (playlist_exists sampleMgr s).2 = sampleMgr) ∧
    (∀ t, (playlist_exists sampleMgr "Liked Songs").1 = true →
      ∃ b, track_is_liked sampleMgr (some t) = Except.ok (b, sampleMgr)) ∧
    (∀ ti a al d su c,
      (get_or_create_track sampleMgr ti a al d su c).2.committed =
        (get_or_create_track sampleMgr ti a al d su c).2.db) ∧
    (∀ tr u, (add_track_cover_art sampleMgr tr u).committed =
      (add_track_cover_art sampleMgr tr u).db) ∧
    (∀ s, (get_or_create_playlist sampleMgr s).2.committed =
      (get_or_create_playlist sampleMgr s).2.db) ∧
    (∀ pl s, (rename_playlist sampleMgr pl s).committed =
      (rename_playlist sampleMgr pl s).db) ∧
    (∀ pl s, (edit_playlist_description sampleMgr pl s).committed =
      (edit_playlist_description sampleMgr pl s).db) ∧
    (∀ pl, (delete_playlist sampleMgr pl).committed =
      (delete_playlist sampleMgr pl).db) ∧
    (∀ tr pl m2, add_track_to_playlist sampleMgr tr pl = Except.ok m2 →
      m2.committed = m2.db) ∧
    (∀ tr pl m2, remove_track_from_playlist sampleMgr tr pl = Except.ok m2 →
      m2.committed = m2.db) ∧
    (∀ tr m2, add_track_to_liked_songs sampleMgr tr = Except.ok m2 →
      m2.committed = m2.db) ∧
    (∀ tr m2, remove_track_from_liked_songs sampleMgr tr = Except.ok m2 →
      m2.committed = m2.db) ∧
    (∀ t u, (add_track_cover_art sampleMgr (some t) u).commits =
      sampleMgr.commits + 1) ∧
    (∀ p s, (rename_playlist sampleMgr (some p) s).commits =
      sampleMgr.commits + 1) ∧
    (∀ p s, (edit_playlist_description sampleMgr (some p) s).commits =
      sampleMgr.commits + 1) ∧
    (∀ p, (delete_playlist sampleMgr (some p)).commits =
      sampleMgr.commits + 1) :=
  C6_amended_commit_discipline sampleMgr rfl

end MusicPlayer
